import Mathlib

/-!
Verification of the widgets_multilayout UI core.

Shallow embedding of the framework found under
`src/new1/examples/dt_charger/`.  Three generations of the framework
exist in the repository:

* `ui_framework.h` (the original; namespace `V1` below): widgets receive
  `InputEvent`s, the screen intercepts the UP/DOWN navigation codes in
  `Screen::handleInput` before forwarding to the focused widget.
* `refactor/UI_Framework.h` and `refactor/refactor2/UI_Framework.h`
  (namespace `UIF` below): widgets receive raw 32-bit IR codes, the
  screen forwards every code to the focused widget, and navigation is
  exposed as `navigateUp`/`navigateDown` (refactor) or a public
  `navigate(int)` (refactor2).  The `Widget`/`Screen` focus and dirty
  machinery is identical in both refactor generations; the concrete
  widget subclasses (`Label`, `Button`) are taken from refactor2.
* `refactor/IR_CommandManager.h`: the command table shared by the
  refactor generations, embedded as `IRCommandManager`.

Machine integers are modelled as `Nat` (for `uint32_t`/`size_t`/
`unsigned long`) and `Int` (for `int16_t`/`int`), with modular
arithmetic made explicit where the C++ unsigned wrap-around matters
(`usub32` for the 32-bit `millis()` clock difference).  `std::function`
handlers are modelled by their identity: `Option Nat` for a command
handler (`none` being an empty `std::function`, which the dispatcher
checks before invoking) and plain `Nat` for a widget callback (every
widget callback in the sources is a non-empty lambda).
-/

/-- Replace the element at a given index, leaving the list unchanged when
the index is out of range (corresponds to `widgets[i]->setFocus(...)`,
which the sources only ever perform at an in-range index). -/
def modifyIdx {α : Type} (f : α → α) : Nat → List α → List α
  | _, [] => []
  | 0, a :: as => f a :: as
  | n + 1, a :: as => a :: modifyIdx f n as

/-- 32-bit unsigned subtraction `a - b`, the arithmetic performed by
`currentTime - lastCommandTime` on the 32-bit `unsigned long` of the
target platform. -/
def usub32 (a b : Nat) : Nat := (a % 2 ^ 32 + 2 ^ 32 - b % 2 ^ 32) % 2 ^ 32

/-! IR code constants from namespace `IRCodes` of
`refactor/IR_CommandManager.h` (the original `ui_framework.h` uses the
same UP/DOWN/OK literals inline). -/
namespace IRCodes

def UP : Nat := 0xFF629D
def DOWN : Nat := 0xFFA857
def LEFT : Nat := 0xFF22DD
def RIGHT : Nat := 0xFFC23D
def OK : Nat := 0xFF02FD
def RED : Nat := 0xF720DF
def GREEN : Nat := 0xA720DF
def BLUE : Nat := 0x6720DF

end IRCodes

/-- `CommandMapping` from `refactor/IR_CommandManager.h`: code, handler
(`none` models an empty `std::function`), description. -/
structure CommandMapping where
  code : Nat
  handler : Option Nat
  description : String
deriving DecidableEq

/-- `IRCommandManager` state: registered mappings, `lastCode` (0 when no
previous command exists), `lastCommandTime`. -/
structure IRCommandManager where
  commandMappings : List CommandMapping
  lastCode : Nat := 0
  lastCommandTime : Nat := 0
deriving DecidableEq

def REPEAT_DELAY : Nat := 250

/-- The linear scan over `commandMappings` in
`IRCommandManager::handleCommand` (first match wins): on a match invoke
the handler if non-empty, record `lastCode`/`lastCommandTime`, return
true; otherwise return false with the state unchanged.  Result:
(matched, invoked handler, new state). -/
def IRCommandManager.dispatchScan (m : IRCommandManager) (code now : Nat) :
    Bool × Option Nat × IRCommandManager :=
  match m.commandMappings.find? (fun mapping => mapping.code == code) with
  | some mapping =>
      (true, mapping.handler, { m with lastCode := code, lastCommandTime := now })
  | none => (false, none, m)

/-- `IRCommandManager::handleCommand(code)` with `now = millis()` made an
explicit argument.  The repeat sentinel `0xFFFFFFFF` is resolved to
`lastCode` when a previous code exists (`lastCode != 0`) and at least
`REPEAT_DELAY` time units elapsed; otherwise it is rejected.  (The
source's `repeat` parameter is set in the sentinel branch but never read
afterwards, so it is omitted.) -/
def IRCommandManager.handleCommand (m : IRCommandManager) (code now : Nat) :
    Bool × Option Nat × IRCommandManager :=
  if code = 0xFFFFFFFF then
    if m.lastCode ≠ 0 ∧ REPEAT_DELAY ≤ usub32 now m.lastCommandTime then
      m.dispatchScan m.lastCode now
    else
      (false, none, m)
  else
    m.dispatchScan code now

/-! ## The refactor-generation widget framework
(`refactor/UI_Framework.h`, widget subclasses from
`refactor/refactor2/UI_Framework.h`). -/

namespace UIF

/-- Variant payload of the widget subclasses defined in
`refactor/refactor2/UI_Framework.h`: `Label(text, centered)` and
`Button(label, callback)`. -/
inductive WidgetKind where
  | label (text : String) (centered : Bool)
  | button (label : String) (callback : Nat)
deriving DecidableEq

/-- Base `Widget`: rectangle, `focused`, `dirty`, plus the subclass
payload. -/
structure Widget where
  x : Int
  y : Int
  width : Int
  height : Int
  focused : Bool
  dirty : Bool
  kind : WidgetKind
deriving DecidableEq

/-- The `Widget` base-class constructor: `focused(false), dirty(true)`. -/
def Widget.fresh (x y w h : Int) (k : WidgetKind) : Widget :=
  ⟨x, y, w, h, false, true, k⟩

/-- `Widget::setFocus`: assign `focused` and set `dirty`. -/
def Widget.setFocus (w : Widget) (focus : Bool) : Widget :=
  { w with focused := focus, dirty := true }

/-- `Widget::clearDirty`. -/
def Widget.clearDirty (w : Widget) : Widget :=
  { w with dirty := false }

/-- Virtual `Widget::handleInput(uint32_t irCode)`, dispatched over the
subclasses of `refactor/refactor2/UI_Framework.h`.  A `Button` invokes
its callback when focused and the code is `IRCodes::OK`; a `Label`
ignores input.  Neither subclass mutates any widget field, so only the
optionally invoked callback is returned. -/
def Widget.handleInput (w : Widget) (irCode : Nat) : Option Nat :=
  match w.kind with
  | .label _ _ => none
  | .button _ callback =>
      if w.focused = true ∧ irCode = IRCodes.OK then some callback else none

/-- Default widget used with `List.getD` in statements; every statement
only reads indices that are in range. -/
def w0 : Widget := Widget.fresh 0 0 0 0 (WidgetKind.label "" false)

/-- `Screen`: ordered widgets plus the focus cursor. -/
structure Screen where
  widgets : List Widget
  focusedWidgetIndex : Nat
deriving DecidableEq

/-- A freshly constructed `Screen`: no widgets, `focusedWidgetIndex = 0`. -/
def Screen.empty : Screen := ⟨[], 0⟩

/-- `Screen::addWidget`: push the widget; if it is the first one
(`widgets.size() == 1` after `push_back`, i.e. the list was empty
before), focus it.  Call sites always pass a freshly constructed widget
(`focused = false`, `dirty = true`). -/
def Screen.addWidget (s : Screen) (widget : Widget) : Screen :=
  if s.widgets.isEmpty then
    { s with widgets := s.widgets ++ [widget.setFocus true] }
  else
    { s with widgets := s.widgets ++ [widget] }

/-- `Screen::changeFocus(int direction)` (also `navigate` in refactor2):
no-op when empty, otherwise unfocus the current widget, move the cursor
to `(focusedWidgetIndex + widgets.size() + direction) % widgets.size()`,
and focus the widget there.  (The C++ computes the sum in `size_t`; for
the directions used, `|direction| ≤ 1 ≤ focusedWidgetIndex +
widgets.size()`, the sum never wraps, so `Int.toNat` is exact.) -/
def Screen.changeFocus (s : Screen) (direction : Int) : Screen :=
  if s.widgets.isEmpty then s
  else
    let n := s.widgets.length
    let ws1 := modifyIdx (fun w => w.setFocus false) s.focusedWidgetIndex s.widgets
    let j := (((s.focusedWidgetIndex : Int) + (n : Int) + direction).toNat) % n
    { widgets := modifyIdx (fun w => w.setFocus true) j ws1, focusedWidgetIndex := j }

/-- `Screen::navigateUp` → `changeFocus(-1)`. -/
def Screen.navigateUp (s : Screen) : Screen := s.changeFocus (-1)

/-- `Screen::navigateDown` → `changeFocus(1)`. -/
def Screen.navigateDown (s : Screen) : Screen := s.changeFocus 1

/-- `Screen::handleInput(uint32_t irCode)` of the refactor generations:
forward the code to the focused widget when the screen is non-empty.  No
navigation code is intercepted here.  An out-of-range
`focusedWidgetIndex` would be undefined behaviour in the C++ source and
is modelled as no dispatch (it is never reached, see the safety
invariant below).  The widget subclasses mutate no widget state, so the
screen is returned unchanged alongside the optionally invoked
callback. -/
def Screen.handleInput (s : Screen) (irCode : Nat) : Screen × Option Nat :=
  if s.widgets.isEmpty then (s, none)
  else
    match s.widgets.get? s.focusedWidgetIndex with
    | some w => (s, w.handleInput irCode)
    | none => (s, none)

/-- The loop body of `Screen::draw`: walk the widgets in order, render
the dirty ones (first component: the widgets drawn, with the state they
had when drawn) and clear their dirty flag (second component: the
widget list afterwards). -/
def drawLoop : List Widget → List Widget × List Widget
  | [] => ([], [])
  | w :: ws =>
      let rest := drawLoop ws
      if w.dirty then (w :: rest.1, w.clearDirty :: rest.2)
      else (rest.1, w :: rest.2)

/-- `Screen::draw(display)`: returns the widgets rendered (in order) and
the resulting screen. -/
def Screen.draw (s : Screen) : List Widget × Screen :=
  ((drawLoop s.widgets).1, { s with widgets := (drawLoop s.widgets).2 })

/-- The operations a client can perform on a `Screen`: `addWidget` with
a freshly constructed widget, `navigateUp`/`navigateDown` (refactor),
the public `navigate(int)` of refactor2, and `handleInput`. -/
inductive UIOp where
  | add (x y w h : Int) (k : WidgetKind)
  | navUp
  | navDown
  | nav (d : Int)
  | input (code : Nat)
deriving DecidableEq

/-- Apply one operation to a screen. -/
def UIOp.apply (s : Screen) : UIOp → Screen
  | .add x y w h k => s.addWidget (Widget.fresh x y w h k)
  | .navUp => s.navigateUp
  | .navDown => s.navigateDown
  | .nav d => s.changeFocus d
  | .input code => (s.handleInput code).1

/-- Run a sequence of operations from a freshly constructed screen. -/
def runOps (ops : List UIOp) : Screen := ops.foldl UIOp.apply Screen.empty

/-- The operations claim C1 ranges over: `addElement` and
`navigate(+1)`/`navigate(-1)`. -/
def UIOp.isBasic : UIOp → Bool
  | .add _ _ _ _ _ => true
  | .navUp => true
  | .navDown => true
  | .nav _ => false
  | .input _ => false

/-- The focus invariant of a `Screen` (spec section 3, "View"):
an empty screen has cursor 0; a non-empty screen has its cursor in
range and exactly the widget under the cursor focused. -/
def Screen.focusInv (s : Screen) : Prop :=
  (s.widgets = [] → s.focusedWidgetIndex = 0) ∧
  (s.widgets ≠ [] → s.focusedWidgetIndex < s.widgets.length) ∧
  ∀ j, j < s.widgets.length →
    ((s.widgets.getD j w0).focused = true ↔ j = s.focusedWidgetIndex)

/-- `UIManager` of the refactor generations: screens in registration
order, index of the active screen.  (The display, IR receiver and
command manager members are external devices or modelled separately.) -/
structure UIManager where
  screens : List Screen
  currentScreenIndex : Nat
deriving DecidableEq

/-- `UIManager::setScreen` of `refactor/UI_Framework.h`: switch when the
index is in range and call `display.clearDisplay()` (second component:
whether the frame buffer was cleared). -/
def UIManager.setScreen (u : UIManager) (index : Nat) : UIManager × Bool :=
  if index < u.screens.length then
    ({ u with currentScreenIndex := index }, true)
  else
    (u, false)

/-- `UIManager::setScreen` of `refactor/refactor2/UI_Framework.h`:
switch when the index is in range; no `clearDisplay()` call. -/
def UIManager.setScreenR2 (u : UIManager) (index : Nat) : UIManager × Bool :=
  if index < u.screens.length then
    ({ u with currentScreenIndex := index }, false)
  else
    (u, false)

end UIF

/-! ## The original widget framework (`ui_framework.h`). -/

namespace V1

/-- `InputEvent::Type`. -/
inductive EventType where
  | evNone
  | irButton
  | timer
deriving DecidableEq

/-- `InputEvent`: tagged 32-bit value. -/
structure InputEvent where
  type : EventType
  value : Nat
deriving DecidableEq

/-- Subclass payloads of `ui_framework.h`.  The float-valued payloads of
`FloatDisplay`/`BatteryWidget` and the plot function of
`FunctionPlotter` affect only pixel output, never input handling or the
focus machinery, and are omitted. -/
inductive WidgetKind where
  | label (text : String) (centered : Bool)
  | button (label : String) (callback : Nat)
  | floatDisplay (precision : Int) (units : String)
  | batteryWidget
  | functionPlotter
deriving DecidableEq

/-- Base `Widget` of `ui_framework.h`. -/
structure Widget where
  x : Int
  y : Int
  width : Int
  height : Int
  focused : Bool
  dirty : Bool
  kind : WidgetKind
deriving DecidableEq

/-- `Widget::setFocus`. -/
def Widget.setFocus (w : Widget) (focus : Bool) : Widget :=
  { w with focused := focus, dirty := true }

/-- Virtual `Widget::handleInput(const InputEvent&)` of `ui_framework.h`.
`Button::handleInput` (lines 208-212) invokes the callback whenever the
event is an IR_BUTTON with value `0xFF02FD` — it does not test
`focused`.  All other subclasses ignore input. -/
def Widget.handleInput (w : Widget) (event : InputEvent) : Option Nat :=
  match w.kind with
  | .button _ callback =>
      if event.type = EventType.irButton ∧ event.value = 0xFF02FD then some callback
      else none
  | _ => none

/-- Default widget used with `List.getD` in statements; every statement
only reads indices that are in range. -/
def w0 : Widget := ⟨0, 0, 0, 0, false, true, WidgetKind.batteryWidget⟩

/-- `Screen` of `ui_framework.h`. -/
structure Screen where
  widgets : List Widget
  focusedWidgetIndex : Nat
deriving DecidableEq

/-- `Screen::changeFocus(int direction)` of `ui_framework.h`: no-op when
empty; otherwise unfocus the current widget, then
`(focusedWidgetIndex + 1) % size` when `direction > 0` and
`(focusedWidgetIndex + size - 1) % size` otherwise, and focus the new
widget. -/
def Screen.changeFocus (s : Screen) (direction : Int) : Screen :=
  if s.widgets.isEmpty then s
  else
    let n := s.widgets.length
    let ws1 := modifyIdx (fun w => w.setFocus false) s.focusedWidgetIndex s.widgets
    let j := if direction > 0 then (s.focusedWidgetIndex + 1) % n
             else (s.focusedWidgetIndex + n - 1) % n
    { widgets := modifyIdx (fun w => w.setFocus true) j ws1, focusedWidgetIndex := j }

/-- `Screen::handleInput(const InputEvent&)` of `ui_framework.h`: on an
IR_BUTTON event, value `0xFF629D` (UP) moves focus backwards and
`0xFFA857` (DOWN) moves it forwards — navigation is intercepted before
any widget sees the event; any other value is forwarded to the focused
widget when `focusedWidgetIndex < widgets.size()`.  Non-IR events do
nothing.  The widget subclasses mutate no widget state, so the screen
part of the result carries the focus change only. -/
def Screen.handleInput (s : Screen) (event : InputEvent) : Screen × Option Nat :=
  if event.type = EventType.irButton then
    if event.value = 0xFF629D then (s.changeFocus (-1), none)
    else if event.value = 0xFFA857 then (s.changeFocus 1, none)
    else if h : s.focusedWidgetIndex < s.widgets.length then
      (s, (s.widgets.get ⟨s.focusedWidgetIndex, h⟩).handleInput event)
    else (s, none)
  else (s, none)

end V1

/-! ## Derived notions and concrete example states used in the statements -/

/-- A run of repeat-sentinel dispatches at the given times is entirely
rejected: each returns false, invokes no handler, and the run continues
from the resulting state. -/
def repeatRejected (m : IRCommandManager) : List Nat → Prop
  | [] => True
  | t :: ts =>
      (m.handleCommand 0xFFFFFFFF t).1 = false ∧
      (m.handleCommand 0xFFFFFFFF t).2.1 = none ∧
      repeatRejected (m.handleCommand 0xFFFFFFFF t).2.2 ts

/-- Example table for the C2 witness: code 5 registered, last dispatch
of 5 at time 0. -/
def mgrC2 : IRCommandManager := ⟨[⟨5, some 9, "cmd"⟩], 5, 0⟩

/-- Example table for the C2 counterexample: a command registered under
code 0, never dispatched yet. -/
def mgrC2cex : IRCommandManager := ⟨[⟨0, some 7, "zero"⟩], 0, 0⟩

/-- Example table for the C3 counterexample: the repeat sentinel value
itself registered as a command code. -/
def mgrC3cex : IRCommandManager := ⟨[⟨0xFFFFFFFF, some 3, "rep"⟩], 0, 0⟩

/-- Example table for the C10 witness: a command registered under
code 0. -/
def mgrC10 : IRCommandManager := ⟨[⟨0, some 3, "zero"⟩], 0, 0⟩

/-- Example operation sequence for the C1 witness: two added widgets,
one navigation step. -/
def opsC1 : List UIF.UIOp :=
  [UIF.UIOp.add 0 0 128 10 (UIF.WidgetKind.label "t" true),
   UIF.UIOp.add 14 54 100 10 (UIF.WidgetKind.button "Start" 1),
   UIF.UIOp.navDown]

/-- Example operation sequence for the C9 witness: additions, a general
navigate, and a forwarded input. -/
def opsC9 : List UIF.UIOp :=
  [UIF.UIOp.add 0 0 128 10 (UIF.WidgetKind.label "t" true),
   UIF.UIOp.add 14 54 100 10 (UIF.WidgetKind.button "Start" 1),
   UIF.UIOp.nav (-3),
   UIF.UIOp.input 5]

/-- Example refactor-generation screen: a focused button and a label,
cursor at 0. -/
def scrUIF : UIF.Screen :=
  ⟨[⟨0, 0, 100, 10, true, true, UIF.WidgetKind.button "a" 1⟩,
    ⟨0, 12, 100, 10, false, true, UIF.WidgetKind.label "b" false⟩], 0⟩

/-- Example original-generation screen: a focused button and a label,
cursor at 0. -/
def scrV1 : V1.Screen :=
  ⟨[⟨0, 0, 100, 10, true, true, V1.WidgetKind.button "a" 1⟩,
    ⟨0, 12, 100, 10, false, true, V1.WidgetKind.label "b" false⟩], 0⟩

/-- Focused refactor2 button for the C7 witness. -/
def btnUIF : UIF.Widget := ⟨14, 54, 100, 10, true, true, UIF.WidgetKind.button "Run" 7⟩

/-- Focused original-generation button for the C7 witness. -/
def btnV1 : V1.Widget := ⟨14, 54, 100, 10, true, true, V1.WidgetKind.button "Go" 9⟩

/-- Unfocused original-generation button for the C7 counterexample. -/
def btnV1cex : V1.Widget := ⟨14, 54, 100, 10, false, true, V1.WidgetKind.button "Start" 42⟩

/-- Compositor with two installed screens, slot 0 active. -/
def mgrUI : UIF.UIManager := ⟨[UIF.Screen.empty, UIF.Screen.empty], 0⟩

/-! ## Helper lemmas -/

theorem usub32_eq_sub {a b : Nat} (hba : b ≤ a) (ha : a < 2 ^ 32) :
    usub32 a b = a - b := by
  unfold usub32
  omega

theorem modifyIdx_length {α : Type} (f : α → α) (i : Nat) (l : List α) :
    (modifyIdx f i l).length = l.length := by
  induction l generalizing i with
  | nil => cases i <;> rfl
  | cons a as ih =>
      cases i with
      | zero => rfl
      | succ n => simpa [modifyIdx] using ih n

theorem getD_modifyIdx_self {α : Type} (f : α → α) (i : Nat) (l : List α) (d : α)
    (h : i < l.length) :
    (modifyIdx f i l).getD i d = f (l.getD i d) := by
  induction l generalizing i with
  | nil => simp at h
  | cons a as ih =>
      cases i with
      | zero => simp [modifyIdx]
      | succ n =>
          simp only [modifyIdx, List.getD_cons_succ]
          exact ih n (by simpa using h)

theorem getD_modifyIdx_ne {α : Type} (f : α → α) (i j : Nat) (l : List α) (d : α)
    (h : j ≠ i) :
    (modifyIdx f i l).getD j d = l.getD j d := by
  induction l generalizing i j with
  | nil => cases i <;> rfl
  | cons a as ih =>
      cases i with
      | zero =>
          cases j with
          | zero => exact absurd rfl h
          | succ m => simp [modifyIdx]
      | succ n =>
          cases j with
          | zero => simp [modifyIdx]
          | succ m =>
              simp only [modifyIdx, List.getD_cons_succ]
              exact ih n m (by omega)

theorem foldl_inv {α σ : Type} (P : σ → Prop) (f : σ → α → σ)
    (hf : ∀ s a, P s → P (f s a)) :
    ∀ (l : List α) (s : σ), P s → P (l.foldl f s)
  | [], _, h => h
  | a :: l, s, h => foldl_inv P f hf l (f s a) (hf s a h)

namespace UIF

theorem countP_focused_zero (l : List Widget)
    (h : ∀ j, j < l.length → (l.getD j w0).focused = false) :
    l.countP (fun w => w.focused) = 0 := by
  induction l with
  | nil => rfl
  | cons w t ih =>
      have hw : w.focused = false := by simpa using h 0 (by simp)
      have ht : t.countP (fun w => w.focused) = 0 := by
        refine ih (fun j hj => ?_)
        simpa using h (j + 1) (by simpa using hj)
      simp [List.countP_cons, hw, ht]

theorem countP_focused_one (l : List Widget) (i : Nat) (hi : i < l.length)
    (h : ∀ j, j < l.length → ((l.getD j w0).focused = true ↔ j = i)) :
    l.countP (fun w => w.focused) = 1 := by
  induction l generalizing i with
  | nil => simp at hi
  | cons w t ih =>
      cases i with
      | zero =>
          have hw : w.focused = true := by
            have := h 0 (by simp)
            simpa using this.mpr rfl
          have ht : t.countP (fun w => w.focused) = 0 := by
            refine countP_focused_zero t (fun j hj => ?_)
            have := h (j + 1) (by simpa using hj)
            simp only [List.getD_cons_succ] at this
            exact Bool.not_eq_true _ ▸ (by simpa using (this.not.mpr (by omega) : _))
          simp [List.countP_cons, hw, ht]
      | succ i' =>
          have hw : w.focused = false := by
            have := h 0 (by simp)
            simp only [List.getD_cons_zero] at this
            cases hwf : w.focused
            · rfl
            · exact absurd (this.mp hwf) (by omega)
          have ht : t.countP (fun w => w.focused) = 1 := by
            refine ih i' (by simpa using hi) (fun j hj => ?_)
            have := h (j + 1) (by simpa using hj)
            simp only [List.getD_cons_succ] at this
            constructor
            · intro hf
              have := this.mp hf
              omega
            · intro hji
              exact this.mpr (by omega)
          simp [List.countP_cons, hw, ht]

end UIF

namespace UIF

theorem setFocus_focused (w : Widget) (b : Bool) : (w.setFocus b).focused = b := rfl

theorem focusInv_empty : Screen.empty.focusInv := by
  refine ⟨fun _ => rfl, fun hne => absurd rfl hne, fun j hj => ?_⟩
  simp [Screen.empty] at hj

theorem addWidget_of_empty (s : Screen) (w : Widget) (hnil : s.widgets = []) :
    s.addWidget w = { s with widgets := s.widgets ++ [w.setFocus true] } := by
  unfold Screen.addWidget
  rw [if_pos (by simp [hnil])]

theorem addWidget_of_ne (s : Screen) (w : Widget) (hne : s.widgets ≠ []) :
    s.addWidget w = { s with widgets := s.widgets ++ [w] } := by
  unfold Screen.addWidget
  rw [if_neg (by simp [List.isEmpty_eq_false.mpr hne])]

theorem changeFocus_of_empty (s : Screen) (d : Int) (hnil : s.widgets = []) :
    s.changeFocus d = s := by
  unfold Screen.changeFocus
  rw [if_pos (by simp [hnil])]

theorem changeFocus_of_ne (s : Screen) (d : Int) (hne : s.widgets ≠ []) :
    s.changeFocus d =
      { widgets := modifyIdx (fun w => w.setFocus true)
          ((((s.focusedWidgetIndex : Int) + (s.widgets.length : Int) + d).toNat) % s.widgets.length)
          (modifyIdx (fun w => w.setFocus false) s.focusedWidgetIndex s.widgets),
        focusedWidgetIndex :=
          (((s.focusedWidgetIndex : Int) + (s.widgets.length : Int) + d).toNat) % s.widgets.length } := by
  unfold Screen.changeFocus
  rw [if_neg (by simp [List.isEmpty_eq_false.mpr hne])]

theorem focusInv_addWidget (s : Screen) (w : Widget) (hw : w.focused = false)
    (h : s.focusInv) : (s.addWidget w).focusInv := by
  obtain ⟨h1, h2, h3⟩ := h
  by_cases hes : s.widgets = []
  · have hidx : s.focusedWidgetIndex = 0 := h1 hes
    rw [addWidget_of_empty s w hes]
    refine ⟨fun hmt => ?_, fun _ => ?_, fun j hj => ?_⟩
    · exact absurd hmt (by simp)
    · simp [hes, hidx]
    · simp only [hes, List.nil_append, List.length_cons, List.length_nil] at hj
      have hj0 : j = 0 := by omega
      subst hj0
      simp [hes, hidx, Widget.setFocus]
  · have hidx : s.focusedWidgetIndex < s.widgets.length := h2 hes
    rw [addWidget_of_ne s w hes]
    refine ⟨fun hmt => ?_, fun _ => ?_, fun j hj => ?_⟩
    · exact absurd hmt (by simp)
    · simp only [List.length_append, List.length_cons, List.length_nil]
      omega
    · simp only [List.length_append, List.length_cons, List.length_nil] at hj
      rcases Nat.lt_or_ge j s.widgets.length with hlt | hge
      · rw [List.getD_append _ _ _ _ hlt]
        exact h3 j hlt
      · have hj' : j = s.widgets.length := by omega
        rw [List.getD_append_right _ _ _ _ hge, hj']
        simp only [Nat.sub_self, List.getD_cons_zero]
        constructor
        · intro hf; rw [hw] at hf; exact absurd hf (by simp)
        · intro hq; omega

theorem focusInv_changeFocus (s : Screen) (d : Int) (h : s.focusInv) :
    (s.changeFocus d).focusInv := by
  obtain ⟨h1, h2, h3⟩ := h
  by_cases hes : s.widgets = []
  · rw [changeFocus_of_empty s d hes]
    exact ⟨h1, h2, h3⟩
  · have hn : 0 < s.widgets.length := List.length_pos.mpr hes
    have hidx : s.focusedWidgetIndex < s.widgets.length := h2 hes
    rw [changeFocus_of_ne s d hes]
    set n := s.widgets.length with hn_def
    set i := s.focusedWidgetIndex with hi_def
    set j := (((i : Int) + (n : Int) + d).toNat) % n with hj_def
    have hjn : j < n := Nat.mod_lt _ hn
    have hlen1 : (modifyIdx (fun w => w.setFocus false) i s.widgets).length = n :=
      modifyIdx_length _ _ _
    have hlen2 : (modifyIdx (fun w => w.setFocus true) j
        (modifyIdx (fun w => w.setFocus false) i s.widgets)).length = n := by
      rw [modifyIdx_length, hlen1]
    refine ⟨fun hmt => ?_, fun _ => ?_, fun k hk => ?_⟩
    · exfalso
      have hl0 := congrArg List.length hmt
      rw [hlen2] at hl0
      simp only [List.length_nil] at hl0
      omega
    · simpa [hlen2] using hjn
    · simp only [hlen2] at hk
      by_cases hkj : k = j
      · subst hkj
        rw [getD_modifyIdx_self _ _ _ _ (by omega)]
        simp [setFocus_focused]
      · rw [getD_modifyIdx_ne _ _ _ _ _ hkj]
        by_cases hki : k = i
        · subst hki
          rw [getD_modifyIdx_self _ _ _ _ (by omega)]
          simp only [setFocus_focused]
          constructor
          · intro hf; exact absurd hf (by simp)
          · intro hq; exact absurd hq hkj
        · rw [getD_modifyIdx_ne _ _ _ _ _ hki]
          have hiff := h3 k (by omega)
          constructor
          · intro hf; exact absurd (hiff.mp hf) hki
          · intro hq; exact absurd hq hkj

theorem handleInput_fst (s : Screen) (code : Nat) : (s.handleInput code).1 = s := by
  unfold Screen.handleInput
  split
  · rfl
  · split <;> rfl

theorem focusInv_apply (s : Screen) (op : UIOp) (h : s.focusInv) :
    (UIOp.apply s op).focusInv := by
  cases op with
  | add x y w hh k => exact focusInv_addWidget s _ rfl h
  | navUp => exact focusInv_changeFocus s _ h
  | navDown => exact focusInv_changeFocus s _ h
  | nav d => exact focusInv_changeFocus s _ h
  | input c =>
      have heq : UIOp.apply s (UIOp.input c) = s := handleInput_fst s c
      rw [heq]; exact h

theorem focusInv_runOps (ops : List UIOp) : (runOps ops).focusInv :=
  foldl_inv Screen.focusInv UIOp.apply focusInv_apply ops Screen.empty focusInv_empty

end UIF

theorem emod_toNat_succ (i n : Nat) (hn : 0 < n) :
    (((i : Int) + 1) % (n : Int)).toNat = (i + 1) % n := by
  have h2 : ((i : Int) + 1) = ((i + 1 : Nat) : Int) := by omega
  rw [h2, ← Int.natCast_mod, Int.toNat_natCast]

theorem emod_toNat_pred (i n : Nat) (hn : 0 < n) :
    (((i : Int) + (-1)) % (n : Int)).toNat = (i + n - 1) % n := by
  have h2 : ((i : Int) + (-1)) = ((i + n - 1 : Nat) : Int) + (-1) * (n : Int) := by omega
  rw [h2, Int.add_mul_emod_self, ← Int.natCast_mod, Int.toNat_natCast]

theorem wrap_toNat_succ (i n : Nat) (hn : 0 < n) :
    (((i : Int) + (n : Int) + 1).toNat) % n = (((i : Int) + 1) % (n : Int)).toNat := by
  have h1 : ((i : Int) + (n : Int) + 1).toNat = (i + 1) + n := by omega
  rw [h1, Nat.add_mod_right, emod_toNat_succ i n hn]

theorem wrap_toNat_pred (i n : Nat) (hn : 0 < n) :
    (((i : Int) + (n : Int) + (-1)).toNat) % n = (((i : Int) + (-1)) % (n : Int)).toNat := by
  have h1 : ((i : Int) + (n : Int) + (-1)).toNat = i + n - 1 := by omega
  rw [h1, emod_toNat_pred i n hn]

namespace UIF

theorem clearDirty_of_not_dirty (w : Widget) (h : w.dirty = false) : w.clearDirty = w := by
  cases w
  simp_all [Widget.clearDirty]

theorem drawLoop_fst (l : List Widget) : (drawLoop l).1 = l.filter (fun w => w.dirty) := by
  induction l with
  | nil => rfl
  | cons w ws ih =>
      by_cases hd : w.dirty = true
      · simp [drawLoop, hd, List.filter_cons, ih]
      · simp [drawLoop, hd, List.filter_cons, ih]

theorem drawLoop_snd (l : List Widget) : (drawLoop l).2 = l.map Widget.clearDirty := by
  induction l with
  | nil => rfl
  | cons w ws ih =>
      by_cases hd : w.dirty = true
      · simp [drawLoop, hd, ih]
      · have hcw : w.clearDirty = w := clearDirty_of_not_dirty w (by simpa using hd)
        simp [drawLoop, hd, ih, hcw]

theorem filter_dirty_map_clearDirty (l : List Widget) :
    (l.map Widget.clearDirty).filter (fun w => w.dirty) = [] := by
  induction l with
  | nil => rfl
  | cons w ws ih =>
      simp only [List.map_cons, List.filter_cons]
      have : w.clearDirty.dirty = false := rfl
      simp [this, ih]

end UIF

theorem dispatchScan_of_find (m : IRCommandManager) (code now : Nat) (e : CommandMapping)
    (hf : m.commandMappings.find? (fun en => en.code == code) = some e) :
    m.dispatchScan code now =
      (true, e.handler, { m with lastCode := code, lastCommandTime := now }) := by
  unfold IRCommandManager.dispatchScan
  rw [hf]

theorem dispatchScan_of_none (m : IRCommandManager) (code now : Nat)
    (hf : m.commandMappings.find? (fun en => en.code == code) = none) :
    m.dispatchScan code now = (false, none, m) := by
  unfold IRCommandManager.dispatchScan
  rw [hf]

theorem dispatchScan_fst_iff (m : IRCommandManager) (code now : Nat) :
    (m.dispatchScan code now).1 = true ↔ ∃ e ∈ m.commandMappings, e.code = code := by
  cases hf : m.commandMappings.find? (fun en => en.code == code) with
  | none =>
      rw [dispatchScan_of_none m code now hf]
      constructor
      · intro hcontra; simp at hcontra
      · rintro ⟨e, he, hc⟩
        have := List.find?_eq_none.mp hf e he
        simp [hc] at this
  | some e =>
      rw [dispatchScan_of_find m code now e hf]
      constructor
      · intro _
        exact ⟨e, List.mem_of_find?_eq_some hf, by simpa using List.find?_some hf⟩
      · intro _; rfl

theorem handleCommand_sentinel_reject (m : IRCommandManager) (now : Nat)
    (h : ¬(m.lastCode ≠ 0 ∧ REPEAT_DELAY ≤ usub32 now m.lastCommandTime)) :
    m.handleCommand 0xFFFFFFFF now = (false, none, m) := by
  unfold IRCommandManager.handleCommand
  rw [if_pos rfl, if_neg h]

theorem handleCommand_sentinel_accept (m : IRCommandManager) (now : Nat)
    (h1 : m.lastCode ≠ 0) (h2 : REPEAT_DELAY ≤ usub32 now m.lastCommandTime) :
    m.handleCommand 0xFFFFFFFF now = m.dispatchScan m.lastCode now := by
  unfold IRCommandManager.handleCommand
  rw [if_pos rfl, if_pos ⟨h1, h2⟩]

theorem handleCommand_of_ne (m : IRCommandManager) (code now : Nat)
    (h : code ≠ 0xFFFFFFFF) :
    m.handleCommand code now = m.dispatchScan code now := by
  unfold IRCommandManager.handleCommand
  rw [if_neg h]

namespace V1

theorem setFocusV1_focused (w : Widget) (b : Bool) : (w.setFocus b).focused = b := rfl

theorem changeFocusV1_of_empty (s : Screen) (d : Int) (hnil : s.widgets = []) :
    s.changeFocus d = s := by
  unfold Screen.changeFocus
  rw [if_pos (by simp [hnil])]

theorem changeFocusV1_of_ne (s : Screen) (d : Int) (hne : s.widgets ≠ []) :
    s.changeFocus d =
      { widgets := modifyIdx (fun w => w.setFocus true)
          (if d > 0 then (s.focusedWidgetIndex + 1) % s.widgets.length
           else (s.focusedWidgetIndex + s.widgets.length - 1) % s.widgets.length)
          (modifyIdx (fun w => w.setFocus false) s.focusedWidgetIndex s.widgets),
        focusedWidgetIndex :=
          if d > 0 then (s.focusedWidgetIndex + 1) % s.widgets.length
          else (s.focusedWidgetIndex + s.widgets.length - 1) % s.widgets.length } := by
  unfold Screen.changeFocus
  rw [if_neg (by simp [List.isEmpty_eq_false.mpr hne])]

end V1

/-! ## The claims -/

/-- C1: for every View built from a fresh View by a sequence of
addElement and navigate(+1)/navigate(-1) operations that leaves the View
non-empty, exactly one Element has `focused = true`, and it is the
Element at position `focusedIndex`. -/
theorem spec_C1 (ops : List UIF.UIOp)
    (hbasic : ∀ op ∈ ops, op.isBasic = true)
    (hne : (UIF.runOps ops).widgets ≠ []) :
    (UIF.runOps ops).widgets.countP (fun w => w.focused) = 1 ∧
    ((UIF.runOps ops).widgets.getD (UIF.runOps ops).focusedWidgetIndex UIF.w0).focused
      = true := by
  obtain ⟨h1, h2, h3⟩ := UIF.focusInv_runOps ops
  have hidx := h2 hne
  exact ⟨UIF.countP_focused_one _ _ hidx (fun j hj => h3 j hj), (h3 _ hidx).mpr rfl⟩

/-- Witness for C1 at a concrete operation sequence. -/
theorem spec_C1_witness :
    ((∀ op ∈ opsC1, op.isBasic = true) ∧ (UIF.runOps opsC1).widgets ≠ []) ∧
    ((UIF.runOps opsC1).widgets.countP (fun w => w.focused) = 1 ∧
     ((UIF.runOps opsC1).widgets.getD (UIF.runOps opsC1).focusedWidgetIndex UIF.w0).focused
       = true) :=
  ⟨⟨by decide, by decide⟩, spec_C1 opsC1 (by decide) (by decide)⟩

/-- C9: in every View state reachable from a fresh View by addElement,
navigate and handleInput calls, a non-empty Element sequence implies
`focusedIndex` is strictly below the Element count, so the indexed
accesses in handleInput and navigate stay in bounds. -/
theorem spec_C9 (ops : List UIF.UIOp) (hne : (UIF.runOps ops).widgets ≠ []) :
    (UIF.runOps ops).focusedWidgetIndex < (UIF.runOps ops).widgets.length := by
  obtain ⟨h1, h2, h3⟩ := UIF.focusInv_runOps ops
  exact h2 hne

/-- Witness for C9 at a concrete operation sequence. -/
theorem spec_C9_witness :
    (UIF.runOps opsC9).widgets ≠ [] ∧
    (UIF.runOps opsC9).focusedWidgetIndex < (UIF.runOps opsC9).widgets.length :=
  ⟨by decide, spec_C9 opsC9 (by decide)⟩

/-- C4: render draws exactly the dirty Elements, in insertion order,
clears every drawn Element's dirty flag (afterwards no Element is
dirty), and a second render with no intervening change draws nothing. -/
theorem spec_C4 (s : UIF.Screen) :
    (s.draw).1 = s.widgets.filter (fun w => w.dirty) ∧
    (s.draw).2.widgets = s.widgets.map UIF.Widget.clearDirty ∧
    (∀ w ∈ (s.draw).2.widgets, w.dirty = false) ∧
    ((s.draw).2.draw).1 = [] := by
  have hsnd : (s.draw).2.widgets = s.widgets.map UIF.Widget.clearDirty :=
    UIF.drawLoop_snd s.widgets
  refine ⟨UIF.drawLoop_fst s.widgets, hsnd, ?_, ?_⟩
  · intro w hw
    rw [hsnd] at hw
    obtain ⟨v, _, rfl⟩ := List.mem_map.mp hw
    rfl
  · show (UIF.drawLoop (s.draw).2.widgets).1 = []
    rw [hsnd, UIF.drawLoop_fst, UIF.filter_dirty_map_clearDirty]

/-- C5: on a non-empty View with n Elements and direction d ∈ {-1,+1},
navigate(d) moves `focusedIndex` to `(focusedIndex + d) mod n` (wrapping
at both ends), focuses the new Element, and unfocuses the previously
focused Element (when different); on an empty View it changes nothing.
Stated for both the refactor `changeFocus` and the original
`ui_framework.h` `changeFocus`. -/
theorem spec_C5 (s : UIF.Screen) (sv : V1.Screen) (d : Int) (hd : d = -1 ∨ d = 1) :
    (s.widgets = [] → s.changeFocus d = s) ∧
    (sv.widgets = [] → sv.changeFocus d = sv) ∧
    (s.widgets ≠ [] → s.focusedWidgetIndex < s.widgets.length →
      (s.changeFocus d).focusedWidgetIndex
          = (((s.focusedWidgetIndex : Int) + d) % (s.widgets.length : Int)).toNat ∧
      (s.changeFocus d).widgets.length = s.widgets.length ∧
      ((s.changeFocus d).widgets.getD (s.changeFocus d).focusedWidgetIndex UIF.w0).focused
          = true ∧
      ((s.changeFocus d).focusedWidgetIndex ≠ s.focusedWidgetIndex →
        ((s.changeFocus d).widgets.getD s.focusedWidgetIndex UIF.w0).focused = false)) ∧
    (sv.widgets ≠ [] → sv.focusedWidgetIndex < sv.widgets.length →
      (sv.changeFocus d).focusedWidgetIndex
          = (((sv.focusedWidgetIndex : Int) + d) % (sv.widgets.length : Int)).toNat ∧
      (sv.changeFocus d).widgets.length = sv.widgets.length ∧
      ((sv.changeFocus d).widgets.getD (sv.changeFocus d).focusedWidgetIndex V1.w0).focused
          = true ∧
      ((sv.changeFocus d).focusedWidgetIndex ≠ sv.focusedWidgetIndex →
        ((sv.changeFocus d).widgets.getD sv.focusedWidgetIndex V1.w0).focused = false)) := by
  refine ⟨fun hnil => UIF.changeFocus_of_empty s d hnil,
          fun hnil => V1.changeFocusV1_of_empty sv d hnil, ?_, ?_⟩
  · intro hne hidx
    have hn : 0 < s.widgets.length := List.length_pos.mpr hne
    rw [UIF.changeFocus_of_ne s d hne]
    dsimp only
    have hjn : (((s.focusedWidgetIndex : Int) + (s.widgets.length : Int) + d).toNat)
        % s.widgets.length < s.widgets.length := Nat.mod_lt _ hn
    refine ⟨?_, ?_, ?_, ?_⟩
    · rcases hd with rfl | rfl
      · exact wrap_toNat_pred s.focusedWidgetIndex s.widgets.length hn
      · exact wrap_toNat_succ s.focusedWidgetIndex s.widgets.length hn
    · rw [modifyIdx_length, modifyIdx_length]
    · rw [getD_modifyIdx_self _ _ _ _ (by rw [modifyIdx_length]; exact hjn)]
      exact UIF.setFocus_focused _ true
    · intro hji
      rw [getD_modifyIdx_ne _ _ _ _ _ (Ne.symm hji)]
      rw [getD_modifyIdx_self _ _ _ _ hidx]
      exact UIF.setFocus_focused _ false
  · intro hne hidx
    have hn : 0 < sv.widgets.length := List.length_pos.mpr hne
    rw [V1.changeFocusV1_of_ne sv d hne]
    dsimp only
    have hjn : (if d > 0 then (sv.focusedWidgetIndex + 1) % sv.widgets.length
        else (sv.focusedWidgetIndex + sv.widgets.length - 1) % sv.widgets.length)
        < sv.widgets.length := by
      split <;> exact Nat.mod_lt _ hn
    refine ⟨?_, ?_, ?_, ?_⟩
    · rcases hd with rfl | rfl
      · rw [if_neg (by norm_num)]
        exact (emod_toNat_pred sv.focusedWidgetIndex sv.widgets.length hn).symm
      · rw [if_pos (by norm_num)]
        exact (emod_toNat_succ sv.focusedWidgetIndex sv.widgets.length hn).symm
    · rw [modifyIdx_length, modifyIdx_length]
    · rw [getD_modifyIdx_self _ _ _ _ (by rw [modifyIdx_length]; exact hjn)]
      exact V1.setFocusV1_focused _ true
    · intro hji
      rw [getD_modifyIdx_ne _ _ _ _ _ (Ne.symm hji)]
      rw [getD_modifyIdx_self _ _ _ _ hidx]
      exact V1.setFocusV1_focused _ false

/-- Witness for C5 on concrete two-element screens with d = 1. -/
theorem spec_C5_witness :
    (scrUIF.widgets ≠ [] ∧ scrUIF.focusedWidgetIndex < scrUIF.widgets.length ∧
     scrV1.widgets ≠ [] ∧ scrV1.focusedWidgetIndex < scrV1.widgets.length) ∧
    (scrUIF.changeFocus 1).focusedWidgetIndex
        = (((scrUIF.focusedWidgetIndex : Int) + 1) % (scrUIF.widgets.length : Int)).toNat ∧
    (scrV1.changeFocus 1).focusedWidgetIndex
        = (((scrV1.focusedWidgetIndex : Int) + 1) % (scrV1.widgets.length : Int)).toNat :=
  ⟨⟨by decide, by decide, by decide, by decide⟩,
   ((spec_C5 scrUIF scrV1 1 (Or.inr rfl)).2.2.1 (by decide) (by decide)).1,
   ((spec_C5 scrUIF scrV1 1 (Or.inr rfl)).2.2.2 (by decide) (by decide)).1⟩

theorem handleCommand_lastCode_zero (m : IRCommandManager) (h : m.lastCode = 0) (t : Nat) :
    m.handleCommand 0xFFFFFFFF t = (false, none, m) :=
  handleCommand_sentinel_reject m t (fun hc => hc.1 h)

/-- C2 (amended: the registered code must be nonzero, since `lastCode = 0`
encodes "no previous command"): if the table's last successful dispatch
was of a nonzero registered code C at time t0, a repeat sentinel at time
t with t - t0 < repeatDelay (250) is rejected with no handler invoked
and no state change, while at t - t0 ≥ repeatDelay it is accepted and
re-invokes C's (first-registered) handler; a sentinel with no previous
code is always rejected. -/
theorem spec_C2 (m : IRCommandManager) (C t0 t : Nat) (e : CommandMapping)
    (hC : C ≠ 0)
    (hlast : m.lastCode = C)
    (htime : m.lastCommandTime = t0)
    (hfind : m.commandMappings.find? (fun en => en.code == C) = some e)
    (hle : t0 ≤ t) (hlt : t < 2 ^ 32) :
    (t - t0 < REPEAT_DELAY → m.handleCommand 0xFFFFFFFF t = (false, none, m)) ∧
    (REPEAT_DELAY ≤ t - t0 →
      (m.handleCommand 0xFFFFFFFF t).1 = true ∧
      (m.handleCommand 0xFFFFFFFF t).2.1 = e.handler ∧
      (m.handleCommand 0xFFFFFFFF t).2.2
        = { m with lastCode := C, lastCommandTime := t }) ∧
    (∀ m' : IRCommandManager, m'.lastCode = 0 →
      ∀ t', m'.handleCommand 0xFFFFFFFF t' = (false, none, m')) := by
  have hus : usub32 t m.lastCommandTime = t - t0 := by
    rw [htime]
    exact usub32_eq_sub (by omega) hlt
  refine ⟨?_, ?_, ?_⟩
  · intro hwin
    apply handleCommand_sentinel_reject
    rw [hus]
    rintro ⟨_, habs⟩
    omega
  · intro hrep
    rw [handleCommand_sentinel_accept m t (by rw [hlast]; exact hC)
          (by rw [hus]; exact hrep)]
    rw [hlast, dispatchScan_of_find m C t e hfind]
    exact ⟨rfl, rfl, rfl⟩
  · intro m' h0 t'
    exact handleCommand_lastCode_zero m' h0 t'

/-- Witness for C2: code 5 last dispatched at time 0; the sentinel at
time 249 is rejected, at time 250 it is accepted and re-invokes
handler 9. -/
theorem spec_C2_witness :
    ((5 : Nat) ≠ 0 ∧ (0 : Nat) ≤ 249 ∧ (249 : Nat) < 2 ^ 32 ∧
     mgrC2.commandMappings.find? (fun en => en.code == 5)
       = some ⟨5, some 9, "cmd"⟩) ∧
    mgrC2.handleCommand 0xFFFFFFFF 249 = (false, none, mgrC2) ∧
    (mgrC2.handleCommand 0xFFFFFFFF 250).1 = true ∧
    (mgrC2.handleCommand 0xFFFFFFFF 250).2.1 = some 9 :=
  ⟨⟨by decide, by decide, by decide, by decide⟩,
   (spec_C2 mgrC2 5 0 249 ⟨5, some 9, "cmd"⟩ (by decide) rfl rfl (by decide)
      (by decide) (by decide)).1 (by decide),
   ((spec_C2 mgrC2 5 0 250 ⟨5, some 9, "cmd"⟩ (by decide) rfl rfl (by decide)
      (by decide) (by decide)).2.1 (by decide)).1,
   ((spec_C2 mgrC2 5 0 250 ⟨5, some 9, "cmd"⟩ (by decide) rfl rfl (by decide)
      (by decide) (by decide)).2.1 (by decide)).2.1⟩

/-- C2 counterexample: a command registered under code 0 is dispatched
successfully at time 0, yet the repeat sentinel at time 250 (elapsed
time = repeatDelay) is rejected with no handler invoked, because
`lastCode = 0` also encodes "no previous command" — contradicting the
claim's universal quantification over registered codes. -/
theorem spec_C2_cex :
    (mgrC2cex.handleCommand 0 0).1 = true ∧
    ((mgrC2cex.handleCommand 0 0).2.2).lastCode = 0 ∧
    (((mgrC2cex.handleCommand 0 0).2.2).handleCommand 0xFFFFFFFF 250).1 = false ∧
    (((mgrC2cex.handleCommand 0 0).2.2).handleCommand 0xFFFFFFFF 250).2.1 = none := by
  decide

/-- C3 (amended: when the dispatched code is the reserved repeat
sentinel, matching a registered entry does not count — the sentinel
succeeds only as a valid repeat, i.e. when a previous nonzero code
exists, at least repeatDelay has elapsed, and that previous code matches
a registered entry): dispatch returns true iff a non-sentinel code
matches some registered entry, or the sentinel is a valid repeat; with
no registered entries dispatch returns false for every code. -/
theorem spec_C3 (m : IRCommandManager) (code now : Nat) :
    ((m.handleCommand code now).1 = true ↔
      ((code ≠ 0xFFFFFFFF ∧ ∃ e ∈ m.commandMappings, e.code = code) ∨
       (code = 0xFFFFFFFF ∧ m.lastCode ≠ 0 ∧
        REPEAT_DELAY ≤ usub32 now m.lastCommandTime ∧
        ∃ e ∈ m.commandMappings, e.code = m.lastCode))) ∧
    (m.commandMappings = [] → (m.handleCommand code now).1 = false) := by
  constructor
  · by_cases hc : code = 0xFFFFFFFF
    · subst hc
      by_cases hrep : m.lastCode ≠ 0 ∧ REPEAT_DELAY ≤ usub32 now m.lastCommandTime
      · rw [handleCommand_sentinel_accept m now hrep.1 hrep.2, dispatchScan_fst_iff]
        constructor
        · intro hex
          exact Or.inr ⟨rfl, hrep.1, hrep.2, hex⟩
        · rintro (⟨hne, _⟩ | ⟨_, _, _, hex⟩)
          · exact absurd rfl hne
          · exact hex
      · rw [handleCommand_sentinel_reject m now hrep]
        constructor
        · intro habs
          simp at habs
        · rintro (⟨hne, _⟩ | ⟨_, h1, h2, _⟩)
          · exact absurd rfl hne
          · exact absurd ⟨h1, h2⟩ hrep
    · rw [handleCommand_of_ne m code now hc, dispatchScan_fst_iff]
      constructor
      · intro hex
        exact Or.inl ⟨hc, hex⟩
      · rintro (⟨_, hex⟩ | ⟨heq, _⟩)
        · exact hex
        · exact absurd heq hc
  · intro hemp
    have hnone : ∀ c t, m.dispatchScan c t = (false, none, m) := fun c t =>
      dispatchScan_of_none m c t (by rw [hemp]; rfl)
    by_cases hc : code = 0xFFFFFFFF
    · subst hc
      by_cases hrep : m.lastCode ≠ 0 ∧ REPEAT_DELAY ≤ usub32 now m.lastCommandTime
      · rw [handleCommand_sentinel_accept m now hrep.1 hrep.2, hnone]
      · rw [handleCommand_sentinel_reject m now hrep]
    · rw [handleCommand_of_ne m code now hc, hnone]

/-- C3 counterexample: with the reserved sentinel value itself
registered as a command code, the sentinel matches a registered entry
yet dispatch returns false (no previous command exists) — contradicting
the claim's "true iff code matches some registered entry or is a valid
repeat". -/
theorem spec_C3_cex :
    (∃ e ∈ mgrC3cex.commandMappings, e.code = 0xFFFFFFFF) ∧
    (mgrC3cex.handleCommand 0xFFFFFFFF 1000).1 = false :=
  ⟨⟨⟨0xFFFFFFFF, some 3, "rep"⟩, by decide, rfl⟩, by decide⟩

/-- C10: after a successful dispatch of a command registered under
code 0, the recorded `lastCode` is 0 — the same value that encodes "no
previous dispatch" — so every subsequent repeat-sentinel dispatch
returns false and invokes no handler, regardless of elapsed time, until
some nonzero code is successfully dispatched. -/
theorem spec_C10 (m : IRCommandManager) (t0 : Nat)
    (hsucc : (m.handleCommand 0 t0).1 = true) :
    ((m.handleCommand 0 t0).2.2).lastCode = 0 ∧
    ∀ ts : List Nat, repeatRejected ((m.handleCommand 0 t0).2.2) ts := by
  have h0 : m.handleCommand 0 t0 = m.dispatchScan 0 t0 :=
    handleCommand_of_ne m 0 t0 (by decide)
  have hlc : ((m.handleCommand 0 t0).2.2).lastCode = 0 := by
    rw [h0]
    cases hf : m.commandMappings.find? (fun en => en.code == 0) with
    | none =>
        rw [h0, dispatchScan_of_none m 0 t0 hf] at hsucc
        simp at hsucc
    | some e =>
        rw [dispatchScan_of_find m 0 t0 e hf]
  refine ⟨hlc, ?_⟩
  have key : ∀ (ts : List Nat) (m' : IRCommandManager), m'.lastCode = 0 →
      repeatRejected m' ts := by
    intro ts
    induction ts with
    | nil => intro m' _; trivial
    | cons t ts ih =>
        intro m' h0'
        have heq := handleCommand_lastCode_zero m' h0' t
        simp only [repeatRejected, heq]
        exact ⟨trivial, trivial, ih m' h0'⟩
  intro ts
  exact key ts _ hlc

/-- Witness for C10: code 0 registered and dispatched at time 5; the
sentinel is then rejected at times 255 and 100000. -/
theorem spec_C10_witness :
    (mgrC10.handleCommand 0 5).1 = true ∧
    ((mgrC10.handleCommand 0 5).2.2).lastCode = 0 ∧
    repeatRejected ((mgrC10.handleCommand 0 5).2.2) [255, 100000] :=
  ⟨by decide, (spec_C10 mgrC10 5 (by decide)).1,
   (spec_C10 mgrC10 5 (by decide)).2 [255, 100000]⟩

theorem buttonUIF_handleInput_eq (w : UIF.Widget) (lbl : String) (cb : Nat) (code : Nat)
    (hk : w.kind = UIF.WidgetKind.button lbl cb) :
    w.handleInput code
      = if w.focused = true ∧ code = IRCodes.OK then some cb else none := by
  unfold UIF.Widget.handleInput
  rw [hk]

theorem buttonV1_handleInput_eq (w : V1.Widget) (lbl : String) (cb : Nat)
    (e : V1.InputEvent) (hk : w.kind = V1.WidgetKind.button lbl cb) :
    w.handleInput e
      = if e.type = V1.EventType.irButton ∧ e.value = 0xFF02FD then some cb
        else none := by
  unfold V1.Widget.handleInput
  rw [hk]

/-- C6 (amended: only the original `ui_framework.h` Screen intercepts
navigation; the refactor Screen forwards every code): in
`ui_framework.h`, handleInput on an IR_BUTTON event with the UP or DOWN
code moves the focus (via changeFocus) and forwards nothing to the
focused Element, while any other IR code leaves the View unchanged and
is forwarded to the focused Element; in the refactor framework,
handleInput never changes the View and forwards every code (including
UP/DOWN) to the focused Element. -/
theorem spec_C6 (s : V1.Screen) (r : UIF.Screen) (v : Nat) :
    (s.handleInput ⟨V1.EventType.irButton, 0xFF629D⟩ = (s.changeFocus (-1), none)) ∧
    (s.handleInput ⟨V1.EventType.irButton, 0xFFA857⟩ = (s.changeFocus 1, none)) ∧
    (v ≠ 0xFF629D → v ≠ 0xFFA857 →
      (s.handleInput ⟨V1.EventType.irButton, v⟩).1 = s ∧
      ∀ h : s.focusedWidgetIndex < s.widgets.length,
        (s.handleInput ⟨V1.EventType.irButton, v⟩).2
          = (s.widgets.get ⟨s.focusedWidgetIndex, h⟩).handleInput
              ⟨V1.EventType.irButton, v⟩) ∧
    ((r.handleInput v).1 = r ∧
      ∀ h : r.focusedWidgetIndex < r.widgets.length,
        (r.handleInput v).2
          = (r.widgets.get ⟨r.focusedWidgetIndex, h⟩).handleInput v) := by
  refine ⟨?_, ?_, ?_, ?_, ?_⟩
  · unfold V1.Screen.handleInput
    rw [if_pos rfl, if_pos rfl]
  · unfold V1.Screen.handleInput
    rw [if_pos rfl, if_neg (by decide), if_pos rfl]
  · intro hv1 hv2
    constructor
    · unfold V1.Screen.handleInput
      rw [if_pos rfl, if_neg hv1, if_neg hv2]
      split <;> rfl
    · intro h
      unfold V1.Screen.handleInput
      rw [if_pos rfl, if_neg hv1, if_neg hv2, dif_pos h]
  · exact UIF.handleInput_fst r v
  · intro h
    have hne : r.widgets ≠ [] := by
      intro hnil
      rw [hnil] at h
      simp at h
    unfold UIF.Screen.handleInput
    rw [if_neg (by simp [List.isEmpty_eq_false.mpr hne]), List.get?_eq_get h]

/-- Witness for C6 on concrete screens: UP moves focus in the original
framework; a non-navigation code leaves it unchanged; the refactor
framework leaves the screen unchanged even on UP. -/
theorem spec_C6_witness :
    (scrV1.handleInput ⟨V1.EventType.irButton, 0xFF629D⟩
       = (scrV1.changeFocus (-1), none)) ∧
    ((scrV1.handleInput ⟨V1.EventType.irButton, 0xFF02FD⟩).1 = scrV1) ∧
    ((scrUIF.handleInput 0xFF629D).1 = scrUIF) :=
  ⟨(spec_C6 scrV1 scrUIF 0xFF02FD).1,
   ((spec_C6 scrV1 scrUIF 0xFF02FD).2.2.1 (by decide) (by decide)).1,
   (spec_C6 scrV1 scrUIF 0xFF629D).2.2.2.1⟩

/-- C6 counterexample: the refactor Screen's handleInput on the UP code
does not move the focus — the two-widget screen is returned completely
unchanged (cursor still 0), contradicting the claim that every View
moves focus on a navigation code. -/
theorem spec_C6_cex :
    scrUIF.widgets.length = 2 ∧ scrUIF.focusedWidgetIndex = 0 ∧
    (scrUIF.handleInput 0xFF629D).1 = scrUIF := by
  decide

/-- C7 (amended: only the refactor2 Button checks focus; the original
`ui_framework.h` Button invokes its callback on the OK code regardless
of focus): a refactor2 Button invokes its callback iff it is focused and
the code is OK (in particular an unfocused one never does); an original
Button invokes its callback iff the IR_BUTTON event value is OK,
independent of focus. -/
theorem spec_C7 (w : UIF.Widget) (lbl : String) (cb : Nat) (code : Nat)
    (hk : w.kind = UIF.WidgetKind.button lbl cb)
    (wv : V1.Widget) (lv : String) (cv : Nat)
    (hkv : wv.kind = V1.WidgetKind.button lv cv) :
    (w.focused = false → w.handleInput code = none) ∧
    (w.handleInput code = some cb ↔ (w.focused = true ∧ code = IRCodes.OK)) ∧
    (wv.handleInput ⟨V1.EventType.irButton, code⟩ = some cv ↔ code = 0xFF02FD) := by
  rw [buttonUIF_handleInput_eq w lbl cb code hk,
      buttonV1_handleInput_eq wv lv cv _ hkv]
  refine ⟨?_, ?_, ?_⟩
  · intro hf
    rw [if_neg (fun hc => Bool.false_ne_true (hf.symm.trans hc.1))]
  · split
    · rename_i hcond
      simp [hcond]
    · rename_i hcond
      simp [hcond]
  · by_cases hc : code = 0xFF02FD
    · rw [if_pos ⟨rfl, hc⟩]
      simp [hc]
    · rw [if_neg (fun h => hc h.2)]
      simp [hc]

/-- Witness for C7: a focused refactor2 button and a focused original
button, both probed with the OK code. -/
theorem spec_C7_witness :
    (btnUIF.kind = UIF.WidgetKind.button "Run" 7 ∧
     btnV1.kind = V1.WidgetKind.button "Go" 9) ∧
    (btnUIF.handleInput IRCodes.OK = some 7 ↔
      (btnUIF.focused = true ∧ IRCodes.OK = IRCodes.OK)) ∧
    (btnV1.handleInput ⟨V1.EventType.irButton, IRCodes.OK⟩ = some 9 ↔
      IRCodes.OK = 0xFF02FD) :=
  ⟨⟨rfl, rfl⟩,
   (spec_C7 btnUIF "Run" 7 IRCodes.OK rfl btnV1 "Go" 9 rfl).2.1,
   (spec_C7 btnUIF "Run" 7 IRCodes.OK rfl btnV1 "Go" 9 rfl).2.2⟩

/-- C7 counterexample: an unfocused `ui_framework.h` Button still
invokes its callback on the OK code, contradicting the claim that an
unfocused Button invokes its callback for no input code. -/
theorem spec_C7_cex :
    btnV1cex.focused = false ∧
    btnV1cex.handleInput ⟨V1.EventType.irButton, 0xFF02FD⟩ = some 42 := by
  decide

/-- C8 (amended: only the refactor `setScreen` clears the frame buffer
when switching; the refactor2 variant switches without clearing): for
both variants, `setScreen` on a populated slot (index below the screen
count) makes that slot active and keeps the screen set unchanged, the
refactor variant clears the frame buffer while the refactor2 variant
does not; on an unpopulated slot both variants change nothing and do not
clear. -/
theorem spec_C8 (u : UIF.UIManager) (i : Nat) :
    (i < u.screens.length →
      (u.setScreen i).1.currentScreenIndex = i ∧
      (u.setScreen i).1.screens = u.screens ∧
      (u.setScreen i).2 = true ∧
      (u.setScreenR2 i).1.currentScreenIndex = i ∧
      (u.setScreenR2 i).1.screens = u.screens ∧
      (u.setScreenR2 i).2 = false) ∧
    (¬ i < u.screens.length →
      u.setScreen i = (u, false) ∧ u.setScreenR2 i = (u, false)) := by
  constructor
  · intro h
    simp [UIF.UIManager.setScreen, UIF.UIManager.setScreenR2, h]
  · intro h
    simp [UIF.UIManager.setScreen, UIF.UIManager.setScreenR2, h]

/-- Witness for C8: slot 1 of a two-screen compositor is populated,
slot 5 is not. -/
theorem spec_C8_witness :
    ((1 : Nat) < mgrUI.screens.length ∧ ¬ (5 : Nat) < mgrUI.screens.length) ∧
    ((mgrUI.setScreen 1).1.currentScreenIndex = 1 ∧ (mgrUI.setScreen 1).2 = true) ∧
    ((mgrUI.setScreenR2 1).1.currentScreenIndex = 1 ∧
     (mgrUI.setScreenR2 1).2 = false) ∧
    (mgrUI.setScreen 5 = (mgrUI, false) ∧ mgrUI.setScreenR2 5 = (mgrUI, false)) :=
  ⟨⟨by decide, by decide⟩,
   ⟨((spec_C8 mgrUI 1).1 (by decide)).1, ((spec_C8 mgrUI 1).1 (by decide)).2.2.1⟩,
   ⟨((spec_C8 mgrUI 1).1 (by decide)).2.2.2.1,
    ((spec_C8 mgrUI 1).1 (by decide)).2.2.2.2.2⟩,
   (spec_C8 mgrUI 5).2 (by decide)⟩

/-- C8 counterexample: the refactor2 `setScreen` switches to the
populated slot 1 but reports no frame-buffer clear, contradicting the
claim that switching clears the frame buffer. -/
theorem spec_C8_cex :
    (1 : Nat) < mgrUI.screens.length ∧
    (mgrUI.setScreenR2 1).1.currentScreenIndex = 1 ∧
    (mgrUI.setScreenR2 1).2 = false := by
  decide
